import Mathlib

/-!
Shallow embedding of the behavior-injection demo service
(`rollouts/app-src/main.go`): the Behavior Engine (`applyBehavior`),
the four route handlers, the message picker (`getMessage`), the
Prometheus-style metrics bookkeeping and environment-based
configuration (`getEnv`).  Randomness is modelled by explicit streams
of draws: `f32 k` is the result of the k-th `rand.Float32()` call
(a rational in `[0,1)`) and `intn k n` the result of the k-th
`rand.Intn(n)` call (a natural below `n`); handlers thread indices
into those streams, mirroring the sequential consumption of the
global PRNG in the Go code.
-/

/-- A source of random draws: `f32 k` models the k-th `rand.Float32()`
result and `intn k n` the k-th `rand.Intn(n)` result. -/
structure Rng where
  f32 : Nat → ℚ
  intn : Nat → Nat → Nat

/-- Well-formedness of a draw source: `Float32` draws lie in `[0,1)`
and `Intn n` draws lie below `n` (for positive `n`). -/
structure RngOk (g : Rng) : Prop where
  f32_nonneg : ∀ k, 0 ≤ g.f32 k
  f32_lt_one : ∀ k, g.f32 k < 1
  intn_lt : ∀ k n, 0 < n → g.intn k n < n

/-- The process-wide immutable identity set once at startup
(`version`, `behavior`, `hostname` globals in `main.go`). -/
structure ServerConfig where
  version : String
  behavior : String
  hostname : String

/-- The decision of the Behavior Engine for one request: the HTTP
status it dictates and the delay (in milliseconds) it slept for. -/
structure BehaviorResult where
  status : Nat
  delayMs : Nat
deriving DecidableEq

/-- `applyBehavior` from `main.go`: a switch on the behavior mode.
`fi` and `ii` are the current positions in the `Float32` and `Intn`
draw streams; the function returns its decision together with the
advanced positions.  `normal` answers 200 with no sleep; `slow`
sleeps `200+Intn(800)` ms then answers 200; `error-prone` answers 500
when a `Float32` draw is below 0.5 and 200 otherwise; `chaotic`
sleeps `500+Intn(1000)` ms when a first draw is below 0.3 and then,
independently, answers 500 when a second draw is below 0.4; any other
mode falls through to 200 with no sleep. -/
def applyBehavior (behavior : String) (g : Rng) (fi ii : Nat) :
    BehaviorResult × Nat × Nat :=
  if behavior = "normal" then
    (⟨200, 0⟩, fi, ii)
  else if behavior = "slow" then
    (⟨200, 200 + g.intn ii 800⟩, fi, ii + 1)
  else if behavior = "error-prone" then
    if g.f32 fi < 1/2 then (⟨500, 0⟩, fi + 1, ii) else (⟨200, 0⟩, fi + 1, ii)
  else if behavior = "chaotic" then
    let d : Nat × Nat :=
      if g.f32 fi < 3/10 then (500 + g.intn ii 1000, ii + 1) else (0, ii)
    if g.f32 (fi + 1) < 2/5 then (⟨500, d.1⟩, fi + 2, d.2)
    else (⟨200, d.1⟩, fi + 2, d.2)
  else
    (⟨200, 0⟩, fi, ii)

/-- The per-mode message sets of `getMessage` in `main.go`; the map
lookup yields the empty list for an unrecognized mode. -/
def modeMessages (behavior : String) : List String :=
  if behavior = "normal" then
    ["Service operating normally", "All systems functional",
     "Request processed successfully"]
  else if behavior = "slow" then
    ["Service is experiencing delays", "Processing taking longer than usual",
     "High latency detected"]
  else if behavior = "error-prone" then
    ["Service unstable", "Errors may occur", "Degraded performance"]
  else if behavior = "chaotic" then
    ["Unpredictable behavior", "System under stress", "Erratic performance"]
  else
    []

/-- `getMessage` from `main.go`: picks a uniformly random element of
the mode's message set, or the literal "Unknown state" when the set
is empty (the `Intn` draw is only consumed in the non-empty case). -/
def getMessage (behavior : String) (g : Rng) (ii : Nat) : String × Nat :=
  let msgs := modeMessages behavior
  if msgs.length = 0 then ("Unknown state", ii)
  else (msgs.getD (g.intn ii msgs.length) "", ii + 1)

/-- The mutable metrics aggregates: the `http_requests_total` counter
(one appended `(method, endpoint, status)` triple per `Inc`), the
`http_request_duration_seconds` histogram (one appended
`(method, endpoint)` pair per `Observe`), and the `app_version_info`
gauge (list of `(labels, value)` samples set so far). -/
structure Metrics where
  counter : List (String × String × Nat)
  durations : List (String × String)
  gauge : List ((String × String × String) × Nat)
deriving DecidableEq

/-- The metrics bookkeeping every handler performs exactly once per
request: one counter increment labelled with the actual status, and
one duration observation (the deferred `Observe` in the Go code). -/
def recordRequest (m : Metrics) (method path : String) (status : Nat) :
    Metrics :=
  { m with
    counter := m.counter ++ [(method, path, status)]
    durations := m.durations ++ [(method, path)] }

/-- The root route's response as far as the spec constrains it: the
status, the total injected delay, and the `message` field of the JSON
envelope (`none` on the plain-text error path). -/
structure RootOut where
  status : Nat
  delayMs : Nat
  message : Option String
deriving DecidableEq

/-- `handleRoot` from `main.go`: applies the behavior, increments the
counter with the actual status, and on success builds the envelope
with a `getMessage` pick. -/
def handleRoot (cfg : ServerConfig) (g : Rng) (fi ii : Nat) (m : Metrics)
    (method : String) : RootOut × Nat × Nat × Metrics :=
  let r := applyBehavior cfg.behavior g fi ii
  let out : RootOut × Nat :=
    if r.1.status ≠ 200 then (⟨r.1.status, r.1.delayMs, none⟩, r.2.2)
    else
      (⟨200, r.1.delayMs, some (getMessage cfg.behavior g r.2.2).1⟩,
       (getMessage cfg.behavior g r.2.2).2)
  (out.1, r.2.1, out.2, recordRequest m method "/" r.1.status)

/-- The health route's response: status and the `status` field of its
JSON body. -/
structure HealthOut where
  status : Nat
  body : String
deriving DecidableEq

/-- `handleHealth` from `main.go`: in error-prone mode only, a
`Float32` draw below 0.3 yields 503/"unhealthy"; every other case
yields 200/"healthy".  The draw is only consumed when the mode is
error-prone (Go short-circuits the `&&`). -/
def handleHealth (cfg : ServerConfig) (g : Rng) (fi : Nat) (m : Metrics)
    (method : String) : HealthOut × Nat × Metrics :=
  let o : HealthOut × Nat :=
    if cfg.behavior = "error-prone" then
      if g.f32 fi < 3/10 then (⟨503, "unhealthy"⟩, fi + 1)
      else (⟨200, "healthy"⟩, fi + 1)
    else (⟨200, "healthy"⟩, fi)
  (o.1, o.2, recordRequest m method "/health" o.1.status)

/-- The data route's response: status, total injected delay, and the
pseudo-random `items` field (`none` on the error path). -/
structure DataOut where
  status : Nat
  delayMs : Nat
  items : Option Nat
deriving DecidableEq

/-- `handleAPIData` from `main.go`: applies the behavior, increments
the counter with the actual status, and on success draws
`rand.Intn(100)` for the `items` field. -/
def handleAPIData (cfg : ServerConfig) (g : Rng) (fi ii : Nat) (m : Metrics)
    (method : String) : DataOut × Nat × Nat × Metrics :=
  let r := applyBehavior cfg.behavior g fi ii
  let out : DataOut × Nat :=
    if r.1.status ≠ 200 then (⟨r.1.status, r.1.delayMs, none⟩, r.2.2)
    else (⟨200, r.1.delayMs, some (g.intn r.2.2 100)⟩, r.2.2 + 1)
  (out.1, r.2.1, out.2, recordRequest m method "/api/data" r.1.status)

/-- The process route's response: status and the TOTAL injected delay
of the request, i.e. the Behavior Engine's sleep plus the handler's
own extra `100+Intn(400)` ms sleep taken in slow mode. -/
structure ProcessOut where
  status : Nat
  delayMs : Nat
deriving DecidableEq

/-- `handleProcess` from `main.go`: applies the behavior, increments
the counter with the actual status; on the success path, when the
mode is slow, it additionally sleeps `100+Intn(400)` ms ("simulate
processing time") on top of the Behavior Engine's sleep. -/
def handleProcess (cfg : ServerConfig) (g : Rng) (fi ii : Nat) (m : Metrics)
    (method : String) : ProcessOut × Nat × Nat × Metrics :=
  let r := applyBehavior cfg.behavior g fi ii
  let out : ProcessOut × Nat :=
    if r.1.status ≠ 200 then (⟨r.1.status, r.1.delayMs⟩, r.2.2)
    else if cfg.behavior = "slow" then
      (⟨200, r.1.delayMs + (100 + g.intn r.2.2 400)⟩, r.2.2 + 1)
    else (⟨200, r.1.delayMs⟩, r.2.2)
  (out.1, r.2.1, out.2, recordRequest m method "/api/process" r.1.status)

/-- The four fixed routes registered in `main`. -/
inductive Route
  | root
  | health
  | apiData
  | apiProcess
deriving DecidableEq

/-- The path string each route is mounted on. -/
def routePath : Route → String
  | Route.root => "/"
  | Route.health => "/health"
  | Route.apiData => "/api/data"
  | Route.apiProcess => "/api/process"

/-- Process-wide mutable state: positions in the two draw streams and
the metrics aggregates. -/
structure St where
  fi : Nat
  ii : Nat
  metrics : Metrics

/-- Dispatch one request to its handler, updating draw positions and
metrics. -/
def stepRequest (cfg : ServerConfig) (g : Rng) (method : String) (r : Route)
    (s : St) : St :=
  match r with
  | Route.root =>
      let o := handleRoot cfg g s.fi s.ii s.metrics method
      ⟨o.2.1, o.2.2.1, o.2.2.2⟩
  | Route.health =>
      let o := handleHealth cfg g s.fi s.metrics method
      ⟨o.2.1, s.ii, o.2.2⟩
  | Route.apiData =>
      let o := handleAPIData cfg g s.fi s.ii s.metrics method
      ⟨o.2.1, o.2.2.1, o.2.2.2⟩
  | Route.apiProcess =>
      let o := handleProcess cfg g s.fi s.ii s.metrics method
      ⟨o.2.1, o.2.2.1, o.2.2.2⟩

/-- The metrics state right after startup: empty counter and
histogram, and the `app_version_info` gauge set to 1 for the process
identity (the single `Set(1)` in `main`). -/
def initMetrics (cfg : ServerConfig) : Metrics :=
  ⟨[], [], [((cfg.version, cfg.behavior, cfg.hostname), 1)]⟩

/-- The server state right after startup. -/
def initSt (cfg : ServerConfig) : St :=
  ⟨0, 0, initMetrics cfg⟩

/-- Serve a finite sequence of requests, each given as a method and a
route. -/
def serve (cfg : ServerConfig) (g : Rng) (reqs : List (String × Route))
    (s : St) : St :=
  reqs.foldl (fun s q => stepRequest cfg g q.1 q.2 s) s

/-- The actual (post-injection) status of the response a dispatched
request produces. -/
def stepStatus (cfg : ServerConfig) (g : Rng) (method : String) (r : Route)
    (s : St) : Nat :=
  match r with
  | Route.root => (handleRoot cfg g s.fi s.ii s.metrics method).1.status
  | Route.health => (handleHealth cfg g s.fi s.metrics method).1.status
  | Route.apiData => (handleAPIData cfg g s.fi s.ii s.metrics method).1.status
  | Route.apiProcess => (handleProcess cfg g s.fi s.ii s.metrics method).1.status

/-- `os.Getenv`: the raw environment maps a name to `some` value when
the variable is set and `none` when unset; Go reports the empty
string for an unset variable. -/
def osGetenv (env : String → Option String) (key : String) : String :=
  (env key).getD ""

/-- `getEnv` from `main.go`: the environment value when it is
non-empty, the fallback otherwise. -/
def getEnv (env : String → Option String) (key defaultValue : String) :
    String :=
  if osGetenv env key ≠ "" then osGetenv env key else defaultValue

/-- The `version` global: `getEnv("VERSION", "1.0")`. -/
def version (env : String → Option String) : String :=
  getEnv env "VERSION" "1.0"

/-- The `behavior` global: `getEnv("BEHAVIOR", "normal")`. -/
def behavior (env : String → Option String) : String :=
  getEnv env "BEHAVIOR" "normal"

/-- The `port` global: `getEnv("PORT", "8080")`. -/
def port (env : String → Option String) : String :=
  getEnv env "PORT" "8080"

/-- A draw source whose `Float32` draws are all 0 and whose `Intn`
draws are all 0: the least possible draws. -/
def zeroRng : Rng :=
  ⟨fun _ => 0, fun _ _ => 0⟩

/-- A draw source whose `Float32` draws are all 9/10 and whose
`Intn n` draws are all `n - 1`: the greatest possible draws. -/
def maxRng : Rng :=
  ⟨fun _ => 9/10, fun _ n => n - 1⟩

/-- A draw source whose `Float32` stream is constantly `q`. -/
def oneDrawRng (q : ℚ) : Rng :=
  ⟨fun _ => q, fun _ _ => 0⟩

/-- A draw source whose first `Float32` draw is `a` and whose later
ones are `b`. -/
def twoDrawRng (a b : ℚ) : Rng :=
  ⟨fun i => if i = 0 then a else b, fun _ _ => 0⟩

theorem zeroRng_ok : RngOk zeroRng :=
  ⟨fun _ => le_refl 0, fun _ => by norm_num [zeroRng], fun _ _ h => h⟩

theorem maxRng_ok : RngOk maxRng :=
  ⟨fun _ => by norm_num [maxRng], fun _ => by norm_num [maxRng],
   fun _ n h => Nat.sub_lt h Nat.one_pos⟩

/-! ### Unfolding lemmas for the Behavior Engine -/

theorem applyBehavior_normal (g : Rng) (fi ii : Nat) :
    applyBehavior "normal" g fi ii = (⟨200, 0⟩, fi, ii) := by
  simp [applyBehavior]

theorem applyBehavior_slow (g : Rng) (fi ii : Nat) :
    applyBehavior "slow" g fi ii = (⟨200, 200 + g.intn ii 800⟩, fi, ii + 1) := by
  simp [applyBehavior]

theorem applyBehavior_errorProne (g : Rng) (fi ii : Nat) :
    applyBehavior "error-prone" g fi ii
      = if g.f32 fi < 1/2 then (⟨500, 0⟩, fi + 1, ii)
        else (⟨200, 0⟩, fi + 1, ii) := by
  simp [applyBehavior]

theorem chaotic_status (g : Rng) (fi ii : Nat) :
    (applyBehavior "chaotic" g fi ii).1.status
      = if g.f32 (fi + 1) < 2/5 then 500 else 200 := by
  by_cases h1 : g.f32 fi < 3/10 <;> by_cases h2 : g.f32 (fi + 1) < 2/5 <;>
    simp [applyBehavior, h1, h2]

theorem chaotic_delay (g : Rng) (fi ii : Nat) :
    (applyBehavior "chaotic" g fi ii).1.delayMs
      = if g.f32 fi < 3/10 then 500 + g.intn ii 1000 else 0 := by
  by_cases h1 : g.f32 fi < 3/10 <;> by_cases h2 : g.f32 (fi + 1) < 2/5 <;>
    simp [applyBehavior, h1, h2]

theorem applyBehavior_default (b : String) (hb1 : b ≠ "normal") (hb2 : b ≠ "slow")
    (hb3 : b ≠ "error-prone") (hb4 : b ≠ "chaotic") (g : Rng) (fi ii : Nat) :
    applyBehavior b g fi ii = (⟨200, 0⟩, fi, ii) := by
  simp [applyBehavior, hb1, hb2, hb3, hb4]

theorem errorProne_500_iff (g : Rng) (fi ii : Nat) :
    (applyBehavior "error-prone" g fi ii).1.status = 500 ↔ g.f32 fi < 1/2 := by
  rw [applyBehavior_errorProne]
  split_ifs with h
  · exact iff_of_true rfl h
  · exact iff_of_false (by simp) h

/-! ### Translating comparisons of uniform grid draws into counting -/

theorem div10_lt_three_tenths (j : Nat) : ((j : ℚ) / 10 < 3/10) ↔ j < 3 := by
  rw [div_lt_div_iff₀ (by norm_num) (by norm_num)]
  norm_cast
  omega

theorem div10_lt_two_fifths (j : Nat) : ((j : ℚ) / 10 < 2/5) ↔ j < 4 := by
  rw [div_lt_div_iff₀ (by norm_num) (by norm_num)]
  norm_cast
  omega

theorem div_lt_half (k n : Nat) (hn : 0 < n) :
    ((k : ℚ) / (2 * n : Nat) < 1/2) ↔ k < n := by
  have h2n : (0:ℚ) < ((2 * n : Nat) : ℚ) := by
    exact_mod_cast Nat.mul_pos (by norm_num) hn
  rw [div_lt_div_iff₀ h2n (by norm_num)]
  norm_cast
  omega

theorem filter_range_lt_card (m n : Nat) (h : n ≤ m) :
    ((Finset.range m).filter (fun k => k < n)).card = n := by
  have he : (Finset.range m).filter (fun k => k < n) = Finset.range n := by
    ext k
    simp only [Finset.mem_filter, Finset.mem_range]
    omega
  rw [he, Finset.card_range]

/-- C1: in error-prone mode `applyBehavior` answers 500 exactly when its
uniform draw is below 0.5, answers 200 otherwise, and never injects a
delay; and over the uniform grid of `2*n` draws `k/(2*n)` exactly `n`
(one half) yield a 500. -/
theorem errorProne_contract :
    (∀ (g : Rng) (fi ii : Nat),
      ((applyBehavior "error-prone" g fi ii).1.status = 500 ↔ g.f32 fi < 1/2)
      ∧ ((applyBehavior "error-prone" g fi ii).1.status = 200 ↔ ¬ g.f32 fi < 1/2)
      ∧ (applyBehavior "error-prone" g fi ii).1.delayMs = 0)
    ∧ ∀ n : Nat,
      ((Finset.range (2 * n)).filter (fun k : Nat =>
        (applyBehavior "error-prone"
          (oneDrawRng ((k : ℚ) / ((2 * n : Nat) : ℚ))) 0 0).1.status = 500)).card = n := by
  constructor
  · intro g fi ii
    refine ⟨errorProne_500_iff g fi ii, ?_, ?_⟩ <;> rw [applyBehavior_errorProne]
    · split_ifs with h
      · exact iff_of_false (by simp) (not_not_intro h)
      · exact iff_of_true rfl h
    · split_ifs with h <;> rfl
  · intro n
    rcases Nat.eq_zero_or_pos n with h0 | h0
    · subst h0; simp
    · have hcongr : ∀ k ∈ Finset.range (2 * n),
          ((applyBehavior "error-prone"
            (oneDrawRng ((k : ℚ) / ((2 * n : Nat) : ℚ))) 0 0).1.status = 500) ↔ k < n := by
        intro k _
        rw [errorProne_500_iff]
        have hf : (oneDrawRng ((k : ℚ) / ((2 * n : Nat) : ℚ))).f32 0
            = (k : ℚ) / ((2 * n : Nat) : ℚ) := rfl
        rw [hf]
        exact div_lt_half k n h0
      rw [Finset.filter_congr hcongr, filter_range_lt_card _ _ (by omega)]

theorem chaotic_500_iff (g : Rng) (fi ii : Nat) :
    (applyBehavior "chaotic" g fi ii).1.status = 500 ↔ g.f32 (fi + 1) < 2/5 := by
  rw [chaotic_status]
  split_ifs with h
  · exact iff_of_true rfl h
  · exact iff_of_false (by simp) h

theorem chaotic_delayed_iff (g : Rng) (fi ii : Nat) :
    (applyBehavior "chaotic" g fi ii).1.delayMs ≠ 0 ↔ g.f32 fi < 3/10 := by
  rw [chaotic_delay]
  split_ifs with h
  · exact iff_of_true (by omega) h
  · exact iff_of_false (by simp) h

/-- C2: in chaotic mode the Behavior Engine makes two independent draws:
it sleeps `500+Intn(1000)` ms (at least 500, below 1500) exactly when
the first draw is below 0.3, and regardless of that outcome answers 500
exactly when the second draw is below 0.4 and 200 otherwise; over the
uniform 10×10 grid of draw pairs, exactly 12 of the 100 pairs (0.12)
are simultaneously delayed and a 500. -/
theorem chaotic_contract (g : Rng) (hg : RngOk g) (fi ii : Nat) :
    (((applyBehavior "chaotic" g fi ii).1.delayMs ≠ 0 ↔ g.f32 fi < 3/10)
      ∧ (g.f32 fi < 3/10 →
          500 ≤ (applyBehavior "chaotic" g fi ii).1.delayMs
          ∧ (applyBehavior "chaotic" g fi ii).1.delayMs < 1500)
      ∧ ((applyBehavior "chaotic" g fi ii).1.status = 500 ↔ g.f32 (fi + 1) < 2/5)
      ∧ ((applyBehavior "chaotic" g fi ii).1.status = 200 ↔ ¬ g.f32 (fi + 1) < 2/5))
    ∧ ((Finset.range 10 ×ˢ Finset.range 10).filter (fun p : Nat × Nat =>
        (applyBehavior "chaotic"
          (twoDrawRng ((p.1 : ℚ) / 10) ((p.2 : ℚ) / 10)) 0 0).1.delayMs ≠ 0
        ∧ (applyBehavior "chaotic"
          (twoDrawRng ((p.1 : ℚ) / 10) ((p.2 : ℚ) / 10)) 0 0).1.status = 500)).card
      = 12 := by
  refine ⟨⟨chaotic_delayed_iff g fi ii, ?_, chaotic_500_iff g fi ii, ?_⟩, ?_⟩
  · intro h
    rw [chaotic_delay, if_pos h]
    have := hg.intn_lt ii 1000 (by norm_num)
    omega
  · rw [chaotic_status]
    split_ifs with h
    · exact iff_of_false (by simp) (not_not_intro h)
    · exact iff_of_true rfl h
  · have hcongr : ∀ p ∈ Finset.range 10 ×ˢ Finset.range 10,
        ((applyBehavior "chaotic"
            (twoDrawRng ((p.1 : ℚ) / 10) ((p.2 : ℚ) / 10)) 0 0).1.delayMs ≠ 0
          ∧ (applyBehavior "chaotic"
            (twoDrawRng ((p.1 : ℚ) / 10) ((p.2 : ℚ) / 10)) 0 0).1.status = 500)
          ↔ (p.1 < 3 ∧ p.2 < 4) := by
      intro p _
      rw [chaotic_delayed_iff, chaotic_500_iff]
      have h1 : (twoDrawRng ((p.1 : ℚ) / 10) ((p.2 : ℚ) / 10)).f32 0
          = (p.1 : ℚ) / 10 := rfl
      have h2 : (twoDrawRng ((p.1 : ℚ) / 10) ((p.2 : ℚ) / 10)).f32 (0 + 1)
          = (p.2 : ℚ) / 10 := rfl
      rw [h1, h2, div10_lt_three_tenths, div10_lt_two_fifths]
    rw [Finset.filter_congr hcongr]
    decide

/-- C2 witness: with the all-zero draw source the chaotic mode is both
delayed and a 500. -/
theorem chaotic_contract_witness :
    (applyBehavior "chaotic" zeroRng 0 0).1.delayMs ≠ 0
    ∧ (applyBehavior "chaotic" zeroRng 0 0).1.status = 500 :=
  ⟨(chaotic_contract zeroRng zeroRng_ok 0 0).1.1.mpr (by norm_num [zeroRng]),
   (chaotic_contract zeroRng zeroRng_ok 0 0).1.2.2.1.mpr (by norm_num [zeroRng])⟩

theorem handleRoot_slow (cfg : ServerConfig) (hb : cfg.behavior = "slow")
    (g : Rng) (fi ii : Nat) (m : Metrics) (method : String) :
    (handleRoot cfg g fi ii m method).1.status = 200
    ∧ (handleRoot cfg g fi ii m method).1.delayMs = 200 + g.intn ii 800 := by
  simp [handleRoot, hb, applyBehavior_slow]

theorem handleAPIData_slow (cfg : ServerConfig) (hb : cfg.behavior = "slow")
    (g : Rng) (fi ii : Nat) (m : Metrics) (method : String) :
    (handleAPIData cfg g fi ii m method).1.status = 200
    ∧ (handleAPIData cfg g fi ii m method).1.delayMs = 200 + g.intn ii 800 := by
  simp [handleAPIData, hb, applyBehavior_slow]

theorem handleProcess_slow (cfg : ServerConfig) (hb : cfg.behavior = "slow")
    (g : Rng) (fi ii : Nat) (m : Metrics) (method : String) :
    (handleProcess cfg g fi ii m method).1.status = 200
    ∧ (handleProcess cfg g fi ii m method).1.delayMs
      = (200 + g.intn ii 800) + (100 + g.intn (ii + 1) 400) := by
  simp [handleProcess, hb, applyBehavior_slow]

/-- C3 counterexample: in slow mode with maximal draws the process
route sleeps 999 ms inside `applyBehavior` plus another 499 ms in the
handler itself, a total injected delay of 1498 ms — not strictly below
1000 ms, refuting the claimed bound for the `/api/process` route. -/
theorem slow_process_delay_cex :
    (handleProcess ⟨"1.0", "slow", "host"⟩ maxRng 0 0
        (initMetrics ⟨"1.0", "slow", "host"⟩) "GET").1.delayMs = 1498
    ∧ ¬ ((handleProcess ⟨"1.0", "slow", "host"⟩ maxRng 0 0
        (initMetrics ⟨"1.0", "slow", "host"⟩) "GET").1.delayMs < 1000) := by
  decide

/-- C3 amended: in slow mode every content route answers 200; the
Behavior Engine's injected delay lies in `[200,1000)` and so does the
total delay of the root and data routes, but the process route adds
its own `100+Intn(400)` ms sleep on top, so its total injected delay
lies in `[300,1500)` rather than below 1000 ms. -/
theorem slow_contract (g : Rng) (hg : RngOk g) (fi ii : Nat) (m : Metrics)
    (method ver hn : String) :
    ((applyBehavior "slow" g fi ii).1.status = 200
      ∧ 200 ≤ (applyBehavior "slow" g fi ii).1.delayMs
      ∧ (applyBehavior "slow" g fi ii).1.delayMs < 1000)
    ∧ ((handleRoot ⟨ver, "slow", hn⟩ g fi ii m method).1.status = 200
      ∧ 200 ≤ (handleRoot ⟨ver, "slow", hn⟩ g fi ii m method).1.delayMs
      ∧ (handleRoot ⟨ver, "slow", hn⟩ g fi ii m method).1.delayMs < 1000)
    ∧ ((handleAPIData ⟨ver, "slow", hn⟩ g fi ii m method).1.status = 200
      ∧ 200 ≤ (handleAPIData ⟨ver, "slow", hn⟩ g fi ii m method).1.delayMs
      ∧ (handleAPIData ⟨ver, "slow", hn⟩ g fi ii m method).1.delayMs < 1000)
    ∧ ((handleProcess ⟨ver, "slow", hn⟩ g fi ii m method).1.status = 200
      ∧ 300 ≤ (handleProcess ⟨ver, "slow", hn⟩ g fi ii m method).1.delayMs
      ∧ (handleProcess ⟨ver, "slow", hn⟩ g fi ii m method).1.delayMs < 1500) := by
  have h800 := hg.intn_lt ii 800 (by norm_num)
  have h400 := hg.intn_lt (ii + 1) 400 (by norm_num)
  have hroot := handleRoot_slow ⟨ver, "slow", hn⟩ rfl g fi ii m method
  have hdata := handleAPIData_slow ⟨ver, "slow", hn⟩ rfl g fi ii m method
  have hproc := handleProcess_slow ⟨ver, "slow", hn⟩ rfl g fi ii m method
  refine ⟨⟨?_, ?_, ?_⟩, ⟨hroot.1, ?_, ?_⟩, ⟨hdata.1, ?_, ?_⟩,
    ⟨hproc.1, ?_, ?_⟩⟩
  · simp [applyBehavior_slow]
  · simp [applyBehavior_slow]
  · simp [applyBehavior_slow]; omega
  · rw [hroot.2]; omega
  · rw [hroot.2]; omega
  · rw [hdata.2]; omega
  · rw [hdata.2]; omega
  · rw [hproc.2]; omega
  · rw [hproc.2]; omega

/-- C3 witness: the amended process-route bounds instantiated at the
all-zero draw source. -/
theorem slow_contract_witness :
    300 ≤ (handleProcess ⟨"1.0", "slow", "host"⟩ zeroRng 0 0
        (initMetrics ⟨"1.0", "slow", "host"⟩) "GET").1.delayMs
    ∧ (handleProcess ⟨"1.0", "slow", "host"⟩ zeroRng 0 0
        (initMetrics ⟨"1.0", "slow", "host"⟩) "GET").1.delayMs < 1500 :=
  ⟨(slow_contract zeroRng zeroRng_ok 0 0 (initMetrics ⟨"1.0", "slow", "host"⟩)
      "GET" "1.0" "host").2.2.2.2.1,
   (slow_contract zeroRng zeroRng_ok 0 0 (initMetrics ⟨"1.0", "slow", "host"⟩)
      "GET" "1.0" "host").2.2.2.2.2⟩

theorem handleHealth_errorProne (cfg : ServerConfig)
    (hb : cfg.behavior = "error-prone") (g : Rng) (fi : Nat) (m : Metrics)
    (method : String) :
    (handleHealth cfg g fi m method).1
      = if g.f32 fi < 3/10 then ⟨503, "unhealthy"⟩ else ⟨200, "healthy"⟩ := by
  by_cases h : g.f32 fi < 3/10 <;> simp [handleHealth, hb, h]

theorem handleHealth_other (cfg : ServerConfig)
    (hb : cfg.behavior ≠ "error-prone") (g : Rng) (fi : Nat) (m : Metrics)
    (method : String) :
    (handleHealth cfg g fi m method).1 = ⟨200, "healthy"⟩ := by
  simp [handleHealth, hb]

/-- C4: on the health route, in error-prone mode the handler answers
503 with body "unhealthy" exactly when its draw is below 0.3, and 200
with body "healthy" otherwise; in every mode other than error-prone it
always answers 200 with body "healthy". -/
theorem health_contract (cfg : ServerConfig) (g : Rng) (fi : Nat)
    (m : Metrics) (method : String) :
    (cfg.behavior = "error-prone" →
      (((handleHealth cfg g fi m method).1.status = 503
          ∧ (handleHealth cfg g fi m method).1.body = "unhealthy")
        ↔ g.f32 fi < 3/10)
      ∧ (¬ g.f32 fi < 3/10 →
          (handleHealth cfg g fi m method).1.status = 200
          ∧ (handleHealth cfg g fi m method).1.body = "healthy"))
    ∧ (cfg.behavior ≠ "error-prone" →
        (handleHealth cfg g fi m method).1.status = 200
        ∧ (handleHealth cfg g fi m method).1.body = "healthy") := by
  constructor
  · intro hb
    rw [handleHealth_errorProne cfg hb g fi m method]
    constructor
    · split_ifs with h
      · exact iff_of_true ⟨rfl, rfl⟩ h
      · exact iff_of_false (fun hc => by simp at hc) h
    · intro h
      rw [if_neg h]
      exact ⟨rfl, rfl⟩
  · intro hb
    rw [handleHealth_other cfg hb g fi m method]
    exact ⟨rfl, rfl⟩

/-- C4 witness: slow mode always reports healthy; error-prone mode with
a zero draw reports unhealthy. -/
theorem health_contract_witness :
    (handleHealth ⟨"1.0", "slow", "host"⟩ zeroRng 0
        (initMetrics ⟨"1.0", "slow", "host"⟩) "GET").1.status = 200
    ∧ (handleHealth ⟨"1.0", "error-prone", "host"⟩ zeroRng 0
        (initMetrics ⟨"1.0", "error-prone", "host"⟩) "GET").1.status = 503 :=
  ⟨((health_contract ⟨"1.0", "slow", "host"⟩ zeroRng 0
      (initMetrics ⟨"1.0", "slow", "host"⟩) "GET").2 (by decide)).1,
   (((health_contract ⟨"1.0", "error-prone", "host"⟩ zeroRng 0
      (initMetrics ⟨"1.0", "error-prone", "host"⟩) "GET").1 rfl).1.mpr
      (by norm_num [zeroRng])).1⟩

theorem modeMessages_default (b : String) (h1 : b ≠ "normal")
    (h2 : b ≠ "slow") (h3 : b ≠ "error-prone") (h4 : b ≠ "chaotic") :
    modeMessages b = [] := by
  simp [modeMessages, h1, h2, h3, h4]

theorem handleRoot_default_out (cfg : ServerConfig)
    (h1 : cfg.behavior ≠ "normal") (h2 : cfg.behavior ≠ "slow")
    (h3 : cfg.behavior ≠ "error-prone") (h4 : cfg.behavior ≠ "chaotic")
    (g : Rng) (fi ii : Nat) (m : Metrics) (method : String) :
    (handleRoot cfg g fi ii m method).1 = ⟨200, 0, some "Unknown state"⟩ := by
  simp [handleRoot, applyBehavior_default _ h1 h2 h3 h4, getMessage,
    modeMessages_default _ h1 h2 h3 h4]

theorem handleRoot_normal_out (cfg : ServerConfig)
    (hb : cfg.behavior = "normal") (g : Rng) (fi ii : Nat) (m : Metrics)
    (method : String) :
    (handleRoot cfg g fi ii m method).1
      = ⟨200, 0, some ((modeMessages "normal").getD (g.intn ii 3) "")⟩ := by
  simp [handleRoot, hb, applyBehavior_normal, getMessage, modeMessages]

/-- C6 counterexample: with an unrecognized mode ("weird") and the same
draw source, the root route's message field is "Unknown state", while
in normal mode it is a normal-mode message — the response bodies are
not identical, refuting the claimed body equality. -/
theorem unrecognized_message_cex :
    (handleRoot ⟨"1.0", "weird", "host"⟩ zeroRng 0 0
        (initMetrics ⟨"1.0", "weird", "host"⟩) "GET").1.message
      = some "Unknown state"
    ∧ (handleRoot ⟨"1.0", "normal", "host"⟩ zeroRng 0 0
        (initMetrics ⟨"1.0", "normal", "host"⟩) "GET").1.message
      = some "Service operating normally"
    ∧ (handleRoot ⟨"1.0", "weird", "host"⟩ zeroRng 0 0
        (initMetrics ⟨"1.0", "weird", "host"⟩) "GET").1.message
      ≠ (handleRoot ⟨"1.0", "normal", "host"⟩ zeroRng 0 0
        (initMetrics ⟨"1.0", "normal", "host"⟩) "GET").1.message := by
  decide

/-- C6 amended: an unrecognized mode behaves like normal for every
route's status and injected delay (Behavior Engine decision, health
rule and process-route extra sleep all agree, with no crash and no
special-cased status), but the root route's message field is the
fallback "Unknown state" rather than a normal-mode message. -/
theorem unrecognized_contract (b : String) (h1 : b ≠ "normal")
    (h2 : b ≠ "slow") (h3 : b ≠ "error-prone") (h4 : b ≠ "chaotic")
    (g : Rng) (fi ii : Nat) (m : Metrics) (method ver hn : String) :
    applyBehavior b g fi ii = applyBehavior "normal" g fi ii
    ∧ (handleHealth ⟨ver, b, hn⟩ g fi m method).1
      = (handleHealth ⟨ver, "normal", hn⟩ g fi m method).1
    ∧ (handleRoot ⟨ver, b, hn⟩ g fi ii m method).1.status
      = (handleRoot ⟨ver, "normal", hn⟩ g fi ii m method).1.status
    ∧ (handleRoot ⟨ver, b, hn⟩ g fi ii m method).1.delayMs
      = (handleRoot ⟨ver, "normal", hn⟩ g fi ii m method).1.delayMs
    ∧ (handleAPIData ⟨ver, b, hn⟩ g fi ii m method).1
      = (handleAPIData ⟨ver, "normal", hn⟩ g fi ii m method).1
    ∧ (handleProcess ⟨ver, b, hn⟩ g fi ii m method).1
      = (handleProcess ⟨ver, "normal", hn⟩ g fi ii m method).1
    ∧ (handleRoot ⟨ver, b, hn⟩ g fi ii m method).1.message
      = some "Unknown state" := by
  refine ⟨?_, ?_, ?_, ?_, ?_, ?_, ?_⟩
  · rw [applyBehavior_default b h1 h2 h3 h4, applyBehavior_normal]
  · rw [handleHealth_other _ h3, handleHealth_other _ (by simp)]
  · rw [handleRoot_default_out _ h1 h2 h3 h4,
      handleRoot_normal_out ⟨ver, "normal", hn⟩ rfl]
  · rw [handleRoot_default_out _ h1 h2 h3 h4,
      handleRoot_normal_out ⟨ver, "normal", hn⟩ rfl]
  · simp [handleAPIData, applyBehavior_default b h1 h2 h3 h4,
      applyBehavior_normal]
  · simp [handleProcess, applyBehavior_default b h1 h2 h3 h4,
      applyBehavior_normal, h2]
  · rw [handleRoot_default_out _ h1 h2 h3 h4]

/-- C6 witness: the amended statement instantiated at mode "weird". -/
theorem unrecognized_contract_witness :
    applyBehavior "weird" zeroRng 0 0 = applyBehavior "normal" zeroRng 0 0
    ∧ (handleRoot ⟨"1.0", "weird", "host"⟩ zeroRng 0 0
        (initMetrics ⟨"1.0", "weird", "host"⟩) "GET").1.message
      = some "Unknown state" :=
  ⟨(unrecognized_contract "weird" (by decide) (by decide) (by decide)
      (by decide) zeroRng 0 0 (initMetrics ⟨"1.0", "weird", "host"⟩)
      "GET" "1.0" "host").1,
   (unrecognized_contract "weird" (by decide) (by decide) (by decide)
      (by decide) zeroRng 0 0 (initMetrics ⟨"1.0", "weird", "host"⟩)
      "GET" "1.0" "host").2.2.2.2.2.2⟩

/-- C7: in normal mode every content route answers 200 with zero
injected delay, for all draw sources. -/
theorem normal_contract (g : Rng) (fi ii : Nat) (m : Metrics)
    (method ver hn : String) :
    applyBehavior "normal" g fi ii = (⟨200, 0⟩, fi, ii)
    ∧ (handleRoot ⟨ver, "normal", hn⟩ g fi ii m method).1.status = 200
    ∧ (handleRoot ⟨ver, "normal", hn⟩ g fi ii m method).1.delayMs = 0
    ∧ (handleAPIData ⟨ver, "normal", hn⟩ g fi ii m method).1.status = 200
    ∧ (handleAPIData ⟨ver, "normal", hn⟩ g fi ii m method).1.delayMs = 0
    ∧ (handleProcess ⟨ver, "normal", hn⟩ g fi ii m method).1.status = 200
    ∧ (handleProcess ⟨ver, "normal", hn⟩ g fi ii m method).1.delayMs = 0 := by
  refine ⟨applyBehavior_normal g fi ii, ?_, ?_, ?_, ?_, ?_, ?_⟩ <;>
    simp [handleRoot, handleAPIData, handleProcess, applyBehavior_normal]

/-! ### Metrics bookkeeping lemmas -/

theorem routePath_inj (a b : Route) : routePath a = routePath b ↔ a = b := by
  cases a <;> cases b <;> decide

theorem stepRequest_counter (cfg : ServerConfig) (g : Rng) (method : String)
    (r : Route) (s : St) :
    (stepRequest cfg g method r s).metrics.counter
      = s.metrics.counter
        ++ [(method, routePath r, stepStatus cfg g method r s)] := by
  cases r
  case health => rfl
  case root =>
    by_cases h : (applyBehavior cfg.behavior g s.fi s.ii).1.status = 200 <;>
      simp [stepRequest, stepStatus, handleRoot, recordRequest, routePath, h]
  case apiData =>
    by_cases h : (applyBehavior cfg.behavior g s.fi s.ii).1.status = 200 <;>
      simp [stepRequest, stepStatus, handleAPIData, recordRequest, routePath, h]
  case apiProcess =>
    by_cases hs : cfg.behavior = "slow"
    · by_cases h : (applyBehavior cfg.behavior g s.fi s.ii).1.status = 200 <;>
        rw [hs] at h <;>
        simp [stepRequest, stepStatus, handleProcess, recordRequest, routePath,
          h, hs]
    · by_cases h : (applyBehavior cfg.behavior g s.fi s.ii).1.status = 200 <;>
        simp [stepRequest, stepStatus, handleProcess, recordRequest, routePath,
          h, hs]

theorem stepRequest_durations (cfg : ServerConfig) (g : Rng) (method : String)
    (r : Route) (s : St) :
    (stepRequest cfg g method r s).metrics.durations
      = s.metrics.durations ++ [(method, routePath r)] := by
  cases r <;> rfl

theorem stepRequest_gauge (cfg : ServerConfig) (g : Rng) (method : String)
    (r : Route) (s : St) :
    (stepRequest cfg g method r s).metrics.gauge = s.metrics.gauge := by
  cases r <;> rfl

theorem serve_cons (cfg : ServerConfig) (g : Rng) (q : String × Route)
    (qs : List (String × Route)) (s : St) :
    serve cfg g (q :: qs) s = serve cfg g qs (stepRequest cfg g q.1 q.2 s) :=
  rfl

theorem serve_counter_countP (cfg : ServerConfig) (g : Rng) (r : Route)
    (reqs : List (String × Route)) : ∀ s : St,
    ((serve cfg g reqs s).metrics.counter.countP
        (fun e => decide (e.2.1 = routePath r)))
      = s.metrics.counter.countP (fun e => decide (e.2.1 = routePath r))
        + reqs.countP (fun q => decide (q.2 = r)) := by
  induction reqs with
  | nil => intro s; simp [serve]
  | cons q qs ih =>
      intro s
      rw [serve_cons, ih, stepRequest_counter, List.countP_append]
      by_cases h : q.2 = r
      · have hp : routePath q.2 = routePath r := by rw [h]
        simp [List.countP_cons, h, hp]
        omega
      · have hp : routePath q.2 ≠ routePath r :=
          fun hc => h ((routePath_inj _ _).mp hc)
        simp [List.countP_cons, h, hp]

theorem serve_durations_countP (cfg : ServerConfig) (g : Rng) (r : Route)
    (reqs : List (String × Route)) : ∀ s : St,
    ((serve cfg g reqs s).metrics.durations.countP
        (fun e => decide (e.2 = routePath r)))
      = s.metrics.durations.countP (fun e => decide (e.2 = routePath r))
        + reqs.countP (fun q => decide (q.2 = r)) := by
  induction reqs with
  | nil => intro s; simp [serve]
  | cons q qs ih =>
      intro s
      rw [serve_cons, ih, stepRequest_durations, List.countP_append]
      by_cases h : q.2 = r
      · have hp : routePath q.2 = routePath r := by rw [h]
        simp [List.countP_cons, h, hp]
        omega
      · have hp : routePath q.2 ≠ routePath r :=
          fun hc => h ((routePath_inj _ _).mp hc)
        simp [List.countP_cons, h, hp]

theorem serve_counter_length (cfg : ServerConfig) (g : Rng)
    (reqs : List (String × Route)) : ∀ s : St,
    (serve cfg g reqs s).metrics.counter.length
      = s.metrics.counter.length + reqs.length := by
  induction reqs with
  | nil => intro s; simp [serve]
  | cons q qs ih =>
      intro s
      rw [serve_cons, ih, stepRequest_counter, List.length_append]
      simp
      omega

theorem serve_gauge (cfg : ServerConfig) (g : Rng)
    (reqs : List (String × Route)) : ∀ s : St,
    (serve cfg g reqs s).metrics.gauge = s.metrics.gauge := by
  induction reqs with
  | nil => intro s; rfl
  | cons q qs ih =>
      intro s
      rw [serve_cons, ih, stepRequest_gauge]

/-- C5: every dispatched request appends exactly one counter sample,
labelled with its method, its route's path and the actual
(post-injection) response status, and exactly one duration observation
for (method, path); consequently, after any finite request sequence
from startup, the number of counter samples for a route — summed over
all status labels — equals the number of requests made to that route,
and likewise for duration observations. -/
theorem metrics_counter_invariant (cfg : ServerConfig) (g : Rng)
    (reqs : List (String × Route)) (r : Route) :
    (∀ (s : St) (method : String) (rt : Route),
      (stepRequest cfg g method rt s).metrics.counter
        = s.metrics.counter
          ++ [(method, routePath rt, stepStatus cfg g method rt s)]
      ∧ (stepRequest cfg g method rt s).metrics.durations
        = s.metrics.durations ++ [(method, routePath rt)])
    ∧ ((serve cfg g reqs (initSt cfg)).metrics.counter.countP
        (fun e => decide (e.2.1 = routePath r)))
      = reqs.countP (fun q => decide (q.2 = r))
    ∧ ((serve cfg g reqs (initSt cfg)).metrics.durations.countP
        (fun e => decide (e.2 = routePath r)))
      = reqs.countP (fun q => decide (q.2 = r))
    ∧ (serve cfg g reqs (initSt cfg)).metrics.counter.length = reqs.length := by
  refine ⟨fun s method rt => ⟨stepRequest_counter cfg g method rt s,
      stepRequest_durations cfg g method rt s⟩, ?_, ?_, ?_⟩
  · rw [serve_counter_countP cfg g r reqs (initSt cfg)]
    simp [initSt, initMetrics]
  · rw [serve_durations_countP cfg g r reqs (initSt cfg)]
    simp [initSt, initMetrics]
  · rw [serve_counter_length cfg g reqs (initSt cfg)]
    simp [initSt, initMetrics]

/-- C8: the static version gauge is set to 1 exactly once at startup
and no request handler writes it: each dispatch step leaves the gauge
untouched, so after any finite request sequence its samples are
exactly the single startup sample with value 1. -/
theorem gauge_frame (cfg : ServerConfig) (g : Rng)
    (reqs : List (String × Route)) :
    (serve cfg g reqs (initSt cfg)).metrics.gauge
      = [((cfg.version, cfg.behavior, cfg.hostname), 1)]
    ∧ ∀ (s : St) (method : String) (rt : Route),
        (stepRequest cfg g method rt s).metrics.gauge = s.metrics.gauge := by
  refine ⟨?_, fun s method rt => stepRequest_gauge cfg g method rt s⟩
  rw [serve_gauge cfg g reqs (initSt cfg)]
  rfl

/-- C9: `getEnv` returns the environment value exactly when it is set
and non-empty, and the fallback otherwise; a variable set to the empty
string is indistinguishable from an unset one; hence VERSION defaults
to "1.0", BEHAVIOR to "normal" and PORT to "8080". -/
theorem getEnv_contract (env : String → Option String) (key d v : String) :
    (env key = some v → v ≠ "" → getEnv env key d = v)
    ∧ (env key = none → getEnv env key d = d)
    ∧ (env key = some "" → getEnv env key d = d)
    ∧ version (fun _ => none) = "1.0"
    ∧ behavior (fun _ => none) = "normal"
    ∧ port (fun _ => none) = "8080" := by
  refine ⟨?_, ?_, ?_, rfl, rfl, rfl⟩
  · intro h hv
    simp [getEnv, osGetenv, h, hv]
  · intro h
    simp [getEnv, osGetenv, h]
  · intro h
    simp [getEnv, osGetenv, h]

/-- C9 witness: a set, non-empty BEHAVIOR wins over the default, and a
BEHAVIOR set to the empty string falls back to the default. -/
theorem getEnv_contract_witness :
    getEnv (fun k => if k = "BEHAVIOR" then some "chaotic" else none)
      "BEHAVIOR" "normal" = "chaotic"
    ∧ getEnv (fun k => if k = "BEHAVIOR" then some "" else none)
      "BEHAVIOR" "normal" = "normal" :=
  ⟨(getEnv_contract (fun k => if k = "BEHAVIOR" then some "chaotic" else none)
      "BEHAVIOR" "normal" "chaotic").1 (by simp) (by simp),
   (getEnv_contract (fun k => if k = "BEHAVIOR" then some "" else none)
      "BEHAVIOR" "normal" "").2.2.1 (by simp)⟩

theorem applyBehavior_status_cases (b : String) (g : Rng) (fi ii : Nat) :
    (applyBehavior b g fi ii).1.status = 200
    ∨ (applyBehavior b g fi ii).1.status = 500 := by
  unfold applyBehavior
  split_ifs <;> simp

theorem handleRoot_status_eq (cfg : ServerConfig) (g : Rng) (fi ii : Nat)
    (m : Metrics) (method : String) :
    (handleRoot cfg g fi ii m method).1.status
      = (applyBehavior cfg.behavior g fi ii).1.status := by
  by_cases h : (applyBehavior cfg.behavior g fi ii).1.status = 200 <;>
    simp [handleRoot, h]

theorem handleAPIData_status_eq (cfg : ServerConfig) (g : Rng) (fi ii : Nat)
    (m : Metrics) (method : String) :
    (handleAPIData cfg g fi ii m method).1.status
      = (applyBehavior cfg.behavior g fi ii).1.status := by
  by_cases h : (applyBehavior cfg.behavior g fi ii).1.status = 200 <;>
    simp [handleAPIData, h]

theorem handleProcess_status_eq (cfg : ServerConfig) (g : Rng) (fi ii : Nat)
    (m : Metrics) (method : String) :
    (handleProcess cfg g fi ii m method).1.status
      = (applyBehavior cfg.behavior g fi ii).1.status := by
  by_cases hs : cfg.behavior = "slow"
  · by_cases h : (applyBehavior cfg.behavior g fi ii).1.status = 200 <;>
      rw [hs] at h <;> simp [handleProcess, h, hs]
  · by_cases h : (applyBehavior cfg.behavior g fi ii).1.status = 200 <;>
      simp [handleProcess, h, hs]

theorem handleRoot_not_503 (cfg : ServerConfig) (g : Rng) (fi ii : Nat)
    (m : Metrics) (method : String) :
    (handleRoot cfg g fi ii m method).1.status ≠ 503 := by
  rw [handleRoot_status_eq]
  rcases applyBehavior_status_cases cfg.behavior g fi ii with h | h <;> omega

theorem handleAPIData_not_503 (cfg : ServerConfig) (g : Rng) (fi ii : Nat)
    (m : Metrics) (method : String) :
    (handleAPIData cfg g fi ii m method).1.status ≠ 503 := by
  rw [handleAPIData_status_eq]
  rcases applyBehavior_status_cases cfg.behavior g fi ii with h | h <;> omega

theorem handleProcess_not_503 (cfg : ServerConfig) (g : Rng) (fi ii : Nat)
    (m : Metrics) (method : String) :
    (handleProcess cfg g fi ii m method).1.status ≠ 503 := by
  rw [handleProcess_status_eq]
  rcases applyBehavior_status_cases cfg.behavior g fi ii with h | h <;> omega

/-- C10: for every mode string and all draws the Behavior Engine is
total and returns only 200 or 500; hence no content route ever answers
503, and a health-route 503 can only arise from the health rule:
error-prone mode with its draw below 0.3. -/
theorem status_totality (b : String) (g : Rng) (fi ii : Nat) (m : Metrics)
    (method ver hn : String) :
    ((applyBehavior b g fi ii).1.status = 200
      ∨ (applyBehavior b g fi ii).1.status = 500)
    ∧ (handleRoot ⟨ver, b, hn⟩ g fi ii m method).1.status ≠ 503
    ∧ (handleAPIData ⟨ver, b, hn⟩ g fi ii m method).1.status ≠ 503
    ∧ (handleProcess ⟨ver, b, hn⟩ g fi ii m method).1.status ≠ 503
    ∧ ((handleHealth ⟨ver, b, hn⟩ g fi m method).1.status = 503 →
        b = "error-prone" ∧ g.f32 fi < 3/10) := by
  refine ⟨applyBehavior_status_cases b g fi ii,
    handleRoot_not_503 _ g fi ii m method,
    handleAPIData_not_503 _ g fi ii m method,
    handleProcess_not_503 _ g fi ii m method, ?_⟩
  intro h503
  by_cases hb : b = "error-prone"
  · refine ⟨hb, ?_⟩
    by_contra hd
    rw [handleHealth_errorProne ⟨ver, b, hn⟩ hb g fi m method, if_neg hd]
      at h503
    simp at h503
  · rw [handleHealth_other ⟨ver, b, hn⟩ hb g fi m method] at h503
    simp at h503

/-- C10 witness: the totality disjunction instantiated at the chaotic
mode with the all-zero draw source. -/
theorem status_totality_witness :
    (applyBehavior "chaotic" zeroRng 0 0).1.status = 200
    ∨ (applyBehavior "chaotic" zeroRng 0 0).1.status = 500 :=
  (status_totality "chaotic" zeroRng 0 0
    (initMetrics ⟨"1.0", "chaotic", "host"⟩) "GET" "1.0" "host").1
